import Mathlib

/-!
Shallow embedding of the solution-summary-generator backend
(`src/backend/src/services/*.ts`): template selection, slide generation
orchestration, confidence scoring, bullet splitting, document assembly and
configuration loading.  Strings are modelled as `List Char`; JavaScript
numbers that the code only ever adds/subtracts/compares are modelled as
`Int` (scores) or `Nat` (lengths, indices); the half-point default-template
boost uses `Rat`.
-/

namespace SSG

/-- JS string type, modelled as a list of characters. -/
abbrev Str := List Char

/-- Whitespace characters as matched by the regex class `\s` (restricted to
the characters that occur in this codebase's data). -/
def isWs (c : Char) : Bool := c = ' ' || c = '\t' || c = '\n' || c = '\r'

/-- `String.prototype.trim()`. -/
def jsTrim (s : Str) : Str :=
  ((s.dropWhile isWs).reverse.dropWhile isWs).reverse

/-- Lower-case a string (`toLowerCase` over the ASCII data used here). -/
def lowerStr (s : Str) : Str := s.map Char.toLower

/-- Upper-case a string (`toUpperCase`). -/
def upperStr (s : Str) : Str := s.map Char.toUpper

/-- Does `pat` occur in `hay` starting exactly at index `i`? -/
def matchesAt (hay pat : Str) (i : Nat) : Bool :=
  decide ((hay.drop i).take pat.length = pat)

/-- `String.prototype.includes` (substring containment). -/
def containsSub (hay pat : Str) : Bool :=
  (List.range (hay.length + 1)).any (fun i => matchesAt hay pat i)

/-- `content.toLowerCase().includes(term.toLowerCase())`. -/
def containsCI (content term : Str) : Bool :=
  containsSub (lowerStr content) (lowerStr term)

/-- `terms.some(t => content.toLowerCase().includes(t.toLowerCase()))`. -/
def anyTermCI (terms : List Str) (content : Str) : Bool :=
  terms.any (fun t => containsCI content t)

/-- Does `s` start with `p`? -/
def strStartsWith (s p : Str) : Bool := decide (s.take p.length = p)

/-- Case-insensitive prefix test. -/
def startsWithCI (s p : Str) : Bool :=
  decide (lowerStr (s.take p.length) = lowerStr p)

/-- `text.split(/\s+/)`: pieces between maximal whitespace runs; a leading
run yields an initial empty piece and a trailing run a final empty piece,
and `"".split(/\s+/)` is `[""]`, exactly as in JS.  The `Bool` argument is
true while a separator run is being consumed. -/
def jsSplitWsGo : Bool → Str → Str → List Str
  | false, [], cur => [cur.reverse]
  | false, c :: rest, cur =>
    if isWs c then cur.reverse :: jsSplitWsGo true rest []
    else jsSplitWsGo false rest (c :: cur)
  | true, [], _ => [[]]
  | true, c :: rest, cur =>
    if isWs c then jsSplitWsGo true rest cur
    else jsSplitWsGo false rest [c]

/-- `text.split(/\s+/)`. -/
def jsSplitWs (s : Str) : List Str := jsSplitWsGo false s []

/-- `text.split('\n')`. -/
def splitNl : Str → List Str
  | [] => [[]]
  | c :: rest =>
    if c = '\n' then [] :: splitNl rest
    else match splitNl rest with
      | [] => [[c]]
      | l :: ls => (c :: l) :: ls

/-- `text.split(' ')` (single-space separator, adjacent separators yield
empty pieces). -/
def splitSp : Str → List Str
  | [] => [[]]
  | c :: rest =>
    if c = ' ' then [] :: splitSp rest
    else match splitSp rest with
      | [] => [[c]]
      | l :: ls => (c :: l) :: ls

/-- Join pieces with a separator. -/
def joinWith (sep : Str) (xs : List Str) : Str := List.intercalate sep xs

/-- Render an `Int` the way a JS template literal renders an integral
number. -/
def intToStr (i : Int) : Str := (toString i).toList

/-- JS `a || b` for an optional string operand (`undefined` and `""` are
falsy). -/
def jsOrStr (o : Option Str) (d : Str) : Str :=
  match o with
  | none => d
  | some s => if s = [] then d else s

/-- JS `a || b` for an optional numeric operand (`undefined` and `0` are
falsy). -/
def jsOrInt (o : Option Int) (d : Int) : Int :=
  match o with
  | none => d
  | some v => if v = 0 then d else v

/-- JS truthiness of an optional number. -/
def intTruthy (o : Option Int) : Bool := o.getD 0 ≠ 0

/-- JS truthiness of an optional string. -/
def strTruthy (o : Option Str) : Bool :=
  match o with
  | none => false
  | some s => s ≠ []

/-! ## TemplateSelectionService (`templateSelectionService.ts`) -/

/-- `TemplateInfo` from `templateSelectionService.ts` (fields not used by
selection scoring are omitted paths). -/
structure TemplateInfo where
  id : Str
  name : Str
  industries : List Str
  projectTypes : List Str
deriving DecidableEq, Repr

/-- `TemplateSelectionCriteria`. -/
structure SelectionCriteria where
  industry : Option Str
  projectType : Option Str
  templateId : Option Str
deriving DecidableEq, Repr

/-- The score computed for one template inside `selectTemplate`
(lines 161–191): for each of industry and project type, if the criterion is
truthy then `+1` when the template's set contains `'all'`, else `+3` when it
contains the requested value; a default template whose score is otherwise
exactly `0` gets `0.5`. -/
def scoreTemplate (t : TemplateInfo) (c : SelectionCriteria) (defaultId : Str) : ℚ :=
  let s1 : ℚ :=
    if strTruthy c.industry then
      if t.industries.contains ("all".toList) then 1
      else if t.industries.contains (c.industry.getD []) then 3
      else 0
    else 0
  let s2 : ℚ :=
    if strTruthy c.projectType then
      if t.projectTypes.contains ("all".toList) then 1
      else if t.projectTypes.contains (c.projectType.getD []) then 3
      else 0
    else 0
  let s := s1 + s2
  if t.id = defaultId ∧ s = 0 then 1/2 else s

/-- The score-maximising loop of `selectTemplate`: `bestScore` starts at
`-1` and is replaced only on strictly greater scores, so the first template
(in registry order) with the maximal score wins. -/
def selectLoop (c : SelectionCriteria) (defaultId : Str) :
    List TemplateInfo → Option TemplateInfo → ℚ → Option TemplateInfo × ℚ
  | [], best, bs => (best, bs)
  | t :: rest, best, bs =>
    let sc := scoreTemplate t c defaultId
    if sc > bs then selectLoop c defaultId rest (some t) sc
    else selectLoop c defaultId rest best bs

/-- `selectTemplate` (lines 146–209): direct id selection when the id is
truthy and known, otherwise score-based selection, then the default /
first-template fallbacks, and a fatal error only when the registry is
empty. -/
def selectTemplate (templates : List TemplateInfo) (c : SelectionCriteria)
    (defaultId : Str) : Except Str TemplateInfo :=
  let byId :=
    if strTruthy c.templateId then
      templates.find? (fun t => t.id = c.templateId.getD [])
    else none
  match byId with
  | some t => .ok t
  | none =>
    match (selectLoop c defaultId templates none (-1)).1 with
    | some t => .ok t
    | none =>
      match templates.find? (fun t => t.id = defaultId) with
      | some t => .ok t
      | none =>
        match templates.head? with
        | some t => .ok t
        | none => .error ("No templates available".toList)

/-! ## Configuration data model (`slideConfigService.ts`) -/

/-- `placeholder_mapping` of a slide. -/
structure PlaceholderMapping where
  content : Str
  title : Option Str
  confidence : Option Str
  warnings : Option Str
deriving DecidableEq, Repr

/-- Per-slide `validation` rules. -/
structure ValidationRules where
  required_keywords : Option (List Str)
  min_word_count : Option Int
  max_word_count : Option Int
  max_bullets : Option Int
  should_contain_numbers : Option Bool
deriving DecidableEq, Repr

/-- The named `penalties` looked up by `calculateConfidence`. -/
structure Penalties where
  contains_risky_term : Option Int
  too_short : Option Int
  too_long : Option Int
  missing_required_keyword : Option Int
  missing_metrics : Option Int
deriving DecidableEq, Repr

/-- The named `bonuses` looked up by `calculateConfidence`. -/
structure Bonuses where
  has_qualifying_terms : Option Int
deriving DecidableEq, Repr

/-- Per-slide `scoring` rules. -/
structure ScoringRules where
  base_score : Option Int
  penalties : Option Penalties
  bonuses : Option Bonuses
deriving DecidableEq, Repr

/-- A slide's `prompt` definition; `vars` models the `variables` map
(`variables` is a reserved word in Lean). -/
structure PromptDef where
  template : Str
  vars : List (Str × Str)
deriving DecidableEq, Repr

/-- `SlideConfig`. -/
structure SlideConfig where
  id : Str
  enabled : Bool
  order : Int
  title : Str
  placeholder_mapping : PlaceholderMapping
  prompt : PromptDef
  validation : Option ValidationRules
  scoring : Option ScoringRules
deriving DecidableEq, Repr

/-- `StaticSlideConfig`. -/
structure StaticSlideConfig where
  id : Str
  order : Int
  title : Str
  source : Str
deriving DecidableEq, Repr

/-- `compliance` term lists. -/
structure ComplianceTerms where
  risky_terms : Option (List Str)
  absolute_terms : Option (List Str)
  qualifying_terms : Option (List Str)
deriving DecidableEq, Repr

/-- `global_formatting` flags. -/
structure Formatting where
  remove_markdown : Option Bool
  max_line_length : Option Int
  bullet_char : Option Str
  remove_section_headers : Option Bool
deriving DecidableEq, Repr

/-- `defaults` of a configuration. -/
structure ConfigDefaults where
  model : Option Str
  max_tokens : Option Int
  temperature : Option ℚ
deriving DecidableEq, Repr

/-- `metadata` of a configuration. -/
structure ConfigMetadata where
  author : Str
  description : Str
  created : Option Str
deriving DecidableEq, Repr

/-- `GlobalConfig`. -/
structure GlobalConfig where
  version : Str
  metadata : ConfigMetadata
  defaults : ConfigDefaults
  global_formatting : Option Formatting
  compliance : Option ComplianceTerms
  slides : List SlideConfig
  static_slides : Option (List StaticSlideConfig)
deriving DecidableEq, Repr

/-- The comparison `a.order - b.order < 0` used by `getEnabledSlides`. -/
def slideLE (a b : SlideConfig) : Prop := a.order ≤ b.order

instance : DecidableRel slideLE :=
  fun a b => inferInstanceAs (Decidable (a.order ≤ b.order))

instance : IsTotal SlideConfig slideLE := ⟨fun a b => Int.le_total a.order b.order⟩

instance : IsTrans SlideConfig slideLE := ⟨fun _ _ _ h h2 => le_trans h h2⟩

/-- Stable ascending sort of slides by `order`
(`.sort((a, b) => a.order - b.order)`, a stable sort per the ECMAScript
specification): insertion sort keeps an earlier slide before a later one of
equal `order`. -/
def sortByOrder (l : List SlideConfig) : List SlideConfig :=
  List.insertionSort slideLE l

/-- `getEnabledSlides` (lines 252–257): enabled slides sorted ascending by
`order`. -/
def getEnabledSlides (cfg : GlobalConfig) : List SlideConfig :=
  sortByOrder (cfg.slides.filter (fun s => s.enabled))

/-- `getComplianceTerms`: `config.compliance || {}`. -/
def getComplianceTerms (cfg : GlobalConfig) : ComplianceTerms :=
  cfg.compliance.getD ⟨none, none, none⟩

/-- `getGlobalFormatting`: `config.global_formatting || {}`. -/
def getGlobalFormatting (cfg : GlobalConfig) : Formatting :=
  cfg.global_formatting.getD ⟨none, none, none, none⟩

/-! ## ConfigStore state machine (`slideConfigService.ts`) -/

/-- One attempt to read the configuration file: whether the file exists,
what the YAML parser produced (`none` when parsing throws), and whether the
Joi schema validation of the parsed document passes. -/
structure LoadEnv where
  fileExists : Bool
  parsed : Option GlobalConfig
  validates : Bool
deriving Repr

/-- The configuration a load attempt would install when nothing fails. -/
def loadAttemptResult (env : LoadEnv) : Option GlobalConfig :=
  if env.fileExists then
    match env.parsed with
    | some cfg => if env.validates then some cfg else none
    | none => none
  else none

/-- `getFallbackConfiguration` (lines 215–229). -/
def getFallbackConfiguration : GlobalConfig :=
  { version := "1.0".toList
    metadata :=
      { author := "System".toList
        description := "Fallback configuration".toList
        created := none }
    defaults :=
      { model := some ("anthropic.claude-3-5-sonnet-20241022-v2:0".toList)
        max_tokens := some 2000
        temperature := some (7/10) }
    global_formatting := none
    compliance := none
    slides := []
    static_slides := none }

/-- `loadConfiguration` (lines 90–117) as a transition on the stored
`config` pointer: on success install the parsed config; on any failure keep
the previous config if one exists, else install the minimal fallback. -/
def loadConfiguration (cur : Option GlobalConfig) (env : LoadEnv) :
    Option GlobalConfig :=
  match loadAttemptResult env with
  | some cfg => some cfg
  | none =>
    match cur with
    | some c => some c
    | none => some getFallbackConfiguration

/-- `reload` (lines 294–297) simply re-runs `loadConfiguration`. -/
def reloadConfig (cur : Option GlobalConfig) (env : LoadEnv) :
    Option GlobalConfig :=
  loadConfiguration cur env

/-- `getConfiguration` (lines 234–239): loads when the pointer is still
null, then dereferences it. -/
def getConfiguration (cur : Option GlobalConfig) (env : LoadEnv) : GlobalConfig :=
  match cur with
  | some c => c
  | none => (loadConfiguration none env).getD getFallbackConfiguration

/-! ## Content post-processing (`slideGeneratorService.ts`, lines 141–332)

The global regex replaces are modelled by fuel-bounded scanners; the fuel is
always `length + 1`, enough for a full left-to-right pass. -/

/-- First index `j` such that `dr` occurs at `j` in `t` with no newline
before it (the lazy group `(.*?)` of the markdown regexes cannot cross a
line). -/
def findCloseNoNl (dr : Str) (t : Str) : Option Nat :=
  (List.range (((t.takeWhile (fun c => c ≠ '\n')).length) + 1)).find?
    (fun j => matchesAt t dr j)

/-- One global replace of `dl(.*?)dr` by the inner group
(e.g. `/\*\*(.*?)\*\*/g → '$1'`). -/
def replaceDelimGo (dl dr : Str) : Nat → Str → Str
  | 0, s => s
  | _, [] => []
  | fuel + 1, c :: rest =>
    if strStartsWith (c :: rest) dl then
      match findCloseNoNl dr ((c :: rest).drop dl.length) with
      | some j =>
        ((c :: rest).drop dl.length).take j ++
          replaceDelimGo dl dr fuel ((c :: rest).drop (dl.length + j + dr.length))
      | none => c :: replaceDelimGo dl dr fuel rest
    else c :: replaceDelimGo dl dr fuel rest

/-- Global replace of `dl(.*?)dr` by the captured group. -/
def replaceDelim (dl dr : Str) (s : Str) : Str :=
  replaceDelimGo dl dr (s.length + 1) s

/-- `/#{1,6}\s/g → ''`: a run of one to six `#` followed by one whitespace
character is deleted (a longer run only matches once its remainder is at
most six). -/
def removeHashesGo : Nat → Str → Str
  | 0, s => s
  | _, [] => []
  | fuel + 1, c :: rest =>
    let s := c :: rest
    let h := (s.takeWhile (fun d => d = '#')).length
    if 1 ≤ h && h ≤ 6 && (match s.drop h with
        | d :: _ => isWs d
        | [] => false) then
      removeHashesGo fuel (s.drop (h + 1))
    else c :: removeHashesGo fuel rest

/-- Match of `(.*?)\]\((.*?)\)` directly after a `[`: the label up to the
first `](`, then everything up to the first `)`; neither group may cross a
newline.  Returns the label and the number of characters consumed. -/
def linkMatch (t : Str) : Option (Str × Nat) :=
  let n := (t.takeWhile (fun c => c ≠ '\n')).length
  match (List.range n).find?
      (fun j => matchesAt t [']', '('] j) with
  | none => none
  | some j =>
    let afterParen := (t.drop (j + 2)).takeWhile (fun c => c ≠ '\n')
    match (List.range afterParen.length).find?
        (fun k => afterParen.get? k = some ')') with
    | none => none
    | some k => some (t.take j, j + 2 + k + 1)

/-- `/\[(.*?)\]\(.*?\)/g → '$1'`. -/
def removeLinksGo : Nat → Str → Str
  | 0, s => s
  | _, [] => []
  | fuel + 1, c :: rest =>
    if c = '[' then
      match linkMatch rest with
      | some (label, consumed) => label ++ removeLinksGo fuel (rest.drop consumed)
      | none => c :: removeLinksGo fuel rest
    else c :: removeLinksGo fuel rest

/-- `removeMarkdown` (lines 289–298): the seven chained replaces. -/
def removeMarkdown (s : Str) : Str :=
  let s := replaceDelim ['*', '*'] ['*', '*'] s
  let s := replaceDelim ['*'] ['*'] s
  let s := replaceDelim ['_', '_'] ['_', '_'] s
  let s := replaceDelim ['_'] ['_'] s
  let s := removeHashesGo (s.length + 1) s
  let s := replaceDelim ['`'] ['`'] s
  removeLinksGo (s.length + 1) s

/-- Replace at most one anchored `^(<alt>)[:\s]*` (case-insensitive): the
first alternative that is a prefix wins, then the run of `:` / whitespace
after it is consumed. -/
def stripHeaderPat (alts : List Str) (text : Str) : Str :=
  match alts.find? (fun p => startsWithCI text p) with
  | some p => (text.drop p.length).dropWhile (fun c => c = ':' || isWs c)
  | none => text

/-- `removeSectionHeaders` (lines 303–317): the dynamic
`^<title>[:\s]*` pattern followed by the two fixed alternations, each
applied once in order.  (The title is interpolated literally, as it is in
the configurations this code reads.) -/
def removeSectionHeaders (text : Str) (slideTitle : Str) : Str :=
  let t := stripHeaderPat [slideTitle] text
  let t := stripHeaderPat
    ["Overview".toList, "Solution & Approach".toList,
     "Expected Outcomes".toList, "Next Steps".toList] t
  stripHeaderPat
    ["Problem Statement".toList, "Assumptions".toList,
     "Client Responsibilities".toList] t

/-- `standardizeBullets` (lines 322–332): `/^[-*·•]/gm` then `/^\d+\./gm`,
each line-leading match replaced by the configured bullet string. -/
def standardizeBullets (text : Str) (bulletChar : Str) : Str :=
  let pass1 := (splitNl text).map (fun l =>
    match l with
    | c :: r =>
      if c = '-' || c = '*' || c = '·' || c = '•' then bulletChar ++ r else l
    | [] => l)
  let pass2 := pass1.map (fun l =>
    let ds := l.takeWhile Char.isDigit
    if ds ≠ [] ∧ (l.drop ds.length).head? = some '.' then
      bulletChar ++ l.drop (ds.length + 1)
    else l)
  joinWith ['\n'] pass2

/-- `/\n{3,}/g → '\n\n'`: collapse runs of three or more newlines to two. -/
def collapseNlGo : Nat → Str → Str
  | 0, s => s
  | _, [] => []
  | fuel + 1, c :: rest =>
    if c = '\n' then
      let s := c :: rest
      let n := (s.takeWhile (fun d => d = '\n')).length
      (if n ≥ 3 then ['\n', '\n'] else s.take n) ++ collapseNlGo fuel (s.drop n)
    else c :: collapseNlGo fuel rest

/-- `/^\s+/gm → ''`: at the start of the string and after every emitted
newline, a greedy whitespace run (which may itself span newlines) is
deleted.  The `Bool` is true at a `^` position. -/
def stripLeadWsGo : Bool → Nat → Str → Str
  | _, 0, s => s
  | _, _, [] => []
  | lineStart, fuel + 1, c :: rest =>
    if lineStart ∧ isWs c then
      stripLeadWsGo false fuel ((c :: rest).dropWhile isWs)
    else c :: stripLeadWsGo (c = '\n') fuel rest

/-- `processContent` (lines 141–167): markdown removal, header removal and
bullet standardisation gated by the formatting flags, then the whitespace
cleanup `replace(/\n{3,}/g,'\n\n').replace(/^\s+/gm,'').trim()`. -/
def processContent (fmtg : Formatting) (content : Str) (slide : SlideConfig) : Str :=
  let p := content
  let p := if fmtg.remove_markdown.getD false then removeMarkdown p else p
  let p := if fmtg.remove_section_headers.getD false then
      removeSectionHeaders p slide.title else p
  let p := if strTruthy fmtg.bullet_char then
      standardizeBullets p (fmtg.bullet_char.getD []) else p
  jsTrim (stripLeadWsGo true (p.length + 1) (collapseNlGo (p.length + 1) p))

/-! ## Confidence scoring and validation (`slideGeneratorService.ts`) -/

/-- `content.split(/\s+/).length`, the word count used by both
`calculateConfidence` and `validateContent`. -/
def jsWordCount (content : Str) : Int := (jsSplitWs content).length

/-- `calculateConfidence` (lines 172–227), transcribed statement by
statement: sequential score mutation, then
`Math.max(0, Math.min(100, Math.round(score)))` (rounding is the identity
on the integral values modelled here). -/
def calculateConfidence (content : Str) (slide : SlideConfig)
    (compliance : ComplianceTerms) : Int :=
  match slide.scoring with
  | none => 85
  | some scoring =>
    let pens := scoring.penalties
    let score : Int := jsOrInt scoring.base_score 85
    let score :=
      if compliance.risky_terms.isSome
          ∧ intTruthy (pens.bind (fun p => p.contains_risky_term))
          ∧ anyTermCI (compliance.risky_terms.getD []) content then
        score - (pens.bind (fun p => p.contains_risky_term)).getD 0
      else score
    let score :=
      if compliance.qualifying_terms.isSome
          ∧ intTruthy (scoring.bonuses.bind (fun b => b.has_qualifying_terms))
          ∧ anyTermCI (compliance.qualifying_terms.getD []) content then
        score + (scoring.bonuses.bind (fun b => b.has_qualifying_terms)).getD 0
      else score
    let wordCount := jsWordCount content
    let score :=
      match slide.validation with
      | none => score
      | some v =>
        let score :=
          if intTruthy v.min_word_count ∧ wordCount < v.min_word_count.getD 0 then
            score - jsOrInt (pens.bind (fun p => p.too_short)) 20
          else score
        if intTruthy v.max_word_count ∧ wordCount > v.max_word_count.getD 0 then
          score - jsOrInt (pens.bind (fun p => p.too_long)) 10
        else score
    let score :=
      if (slide.validation.bind (fun v => v.required_keywords)).isSome
          ∧ intTruthy (pens.bind (fun p => p.missing_required_keyword)) then
        ((slide.validation.bind (fun v => v.required_keywords)).getD []).foldl
          (fun s k =>
            if containsCI content k then s
            else s - (pens.bind (fun p => p.missing_required_keyword)).getD 0)
          score
      else score
    let score :=
      if (slide.validation.bind (fun v => v.should_contain_numbers)).getD false
          ∧ ¬ content.any Char.isDigit then
        score - jsOrInt (pens.bind (fun p => p.missing_metrics)) 10
      else score
    max 0 (min 100 score)

/-- Spec-side reading of the confidence computation (§4.6 as amended): one
closed arithmetic expression in which the risky-term penalty is charged at
most once — when at least one configured risky term occurs — clamped to
`[0, 100]`.  Compared against `calculateConfidence` by `c4` below. -/
def confidenceSpec (content : Str) (slide : SlideConfig)
    (compliance : ComplianceTerms) : Int :=
  match slide.scoring with
  | none => 85
  | some scoring =>
    let pens := scoring.penalties
    let base : Int := jsOrInt scoring.base_score 85
    let riskyDed : Int :=
      if compliance.risky_terms.isSome
          ∧ intTruthy (pens.bind (fun p => p.contains_risky_term))
          ∧ anyTermCI (compliance.risky_terms.getD []) content then
        (pens.bind (fun p => p.contains_risky_term)).getD 0
      else 0
    let qualBon : Int :=
      if compliance.qualifying_terms.isSome
          ∧ intTruthy (scoring.bonuses.bind (fun b => b.has_qualifying_terms))
          ∧ anyTermCI (compliance.qualifying_terms.getD []) content then
        (scoring.bonuses.bind (fun b => b.has_qualifying_terms)).getD 0
      else 0
    let wordCount := jsWordCount content
    let shortDed : Int :=
      match slide.validation with
      | none => 0
      | some v =>
        if intTruthy v.min_word_count ∧ wordCount < v.min_word_count.getD 0 then
          jsOrInt (pens.bind (fun p => p.too_short)) 20
        else 0
    let longDed : Int :=
      match slide.validation with
      | none => 0
      | some v =>
        if intTruthy v.max_word_count ∧ wordCount > v.max_word_count.getD 0 then
          jsOrInt (pens.bind (fun p => p.too_long)) 10
        else 0
    let kwDed : Int :=
      if (slide.validation.bind (fun v => v.required_keywords)).isSome
          ∧ intTruthy (pens.bind (fun p => p.missing_required_keyword)) then
        ((pens.bind (fun p => p.missing_required_keyword)).getD 0) *
          (((slide.validation.bind (fun v => v.required_keywords)).getD []).countP
            (fun k => ¬ containsCI content k))
      else 0
    let metricsDed : Int :=
      if (slide.validation.bind (fun v => v.should_contain_numbers)).getD false
          ∧ ¬ content.any Char.isDigit then
        jsOrInt (pens.bind (fun p => p.missing_metrics)) 10
      else 0
    max 0 (min 100 (base - riskyDed + qualBon - shortDed - longDed - kwDed - metricsDed))

/-- Word character of the regex classes `\w` / `\b`. -/
def isWordChar (c : Char) : Bool :=
  c.isAlpha || c.isDigit || c = '_'

/-- Case-insensitive whole-word occurrence,
`new RegExp('\\b' + term.toLowerCase() + '\\b', 'i').test(content)` for the
word-shaped terms this configuration uses. -/
def wholeWordCI (content term : Str) : Bool :=
  (List.range (content.length + 1)).any (fun i =>
    matchesAt (lowerStr content) (lowerStr term) i
    && (i = 0 || !(match (lowerStr content).get? (i - 1) with
        | some c => isWordChar c
        | none => false))
    && (i + term.length = content.length
        || !(match (lowerStr content).get? (i + term.length) with
        | some c => isWordChar c
        | none => false)))

/-- `validateContent` (lines 232–284): risky-term warnings, absolute-term
warnings, then the validation-rule warnings, in source order. -/
def validateContent (content : Str) (slide : SlideConfig)
    (compliance : ComplianceTerms) : List Str :=
  let riskyW :=
    (compliance.risky_terms.getD []).filterMap (fun t =>
      if containsCI content t then
        some ("⚠️ Contains risky term: \"".toList ++ t ++
          "\" - consider revision".toList)
      else none)
  let absW :=
    (compliance.absolute_terms.getD []).filterMap (fun t =>
      if wholeWordCI content t then
        some ("⚠️ Absolute statement detected: \"".toList ++ t ++
          "\" - consider qualifying".toList)
      else none)
  let valW :=
    match slide.validation with
    | none => []
    | some v =>
      let wordCount := jsWordCount content
      let w1 :=
        if intTruthy v.min_word_count ∧ wordCount < v.min_word_count.getD 0 then
          ["⚠️ Content too short: ".toList ++ intToStr wordCount ++
            " words (minimum: ".toList ++ intToStr (v.min_word_count.getD 0) ++
            ")".toList]
        else []
      let w2 :=
        if intTruthy v.max_word_count ∧ wordCount > v.max_word_count.getD 0 then
          ["⚠️ Content too long: ".toList ++ intToStr wordCount ++
            " words (maximum: ".toList ++ intToStr (v.max_word_count.getD 0) ++
            ")".toList]
        else []
      let w3 :=
        (v.required_keywords.getD []).filterMap (fun k =>
          if containsCI content k then none
          else some ("⚠️ Missing required keyword: \"".toList ++ k ++
            "\"".toList))
      let bullets := (splitNl content).filter
        (fun l => (jsTrim l).head? = some '•')
      let w4 :=
        if intTruthy v.max_bullets ∧ (bullets.length : Int) > v.max_bullets.getD 0 then
          ["⚠️ Too many bullet points: ".toList ++ intToStr bullets.length ++
            " (maximum: ".toList ++ intToStr (v.max_bullets.getD 0) ++
            ")".toList]
        else []
      w1 ++ w2 ++ w3 ++ w4
  riskyW ++ absW ++ valW

/-! ## Generation orchestration (`slideGeneratorService.ts`, lines 38–117)

The text-completion provider (`BedrockService`, a collaborator outside this
repository per spec §6) is modelled as an oracle from the slide
configuration to either a thrown error message or the returned list of
content-item texts; the rendered prompt is a deterministic function of the
slide configuration and the intake data, so the oracle subsumes it. -/

/-- `SlideGenerationResult`. -/
structure SlideResult where
  slideId : Str
  title : Str
  content : Str
  confidence : Int
  warnings : List Str
  placeholders : PlaceholderMapping
deriving DecidableEq, Repr

/-- A provider oracle: `.error e` models `invokeModel` throwing `e`. -/
abbrev Provider := SlideConfig → Except Str (List Str)

/-- `generateSlide` (lines 79–117): invoke the provider, take
`response.content[0]?.text || 'No content generated'`, then process, score
and validate; a provider throw propagates. -/
def generateSlideE (compliance : ComplianceTerms) (fmtg : Formatting)
    (provider : Provider) (s : SlideConfig) : Except Str SlideResult :=
  match provider s with
  | .error e => .error e
  | .ok items =>
    let raw := jsOrStr items.head? ("No content generated".toList)
    let processed := processContent fmtg raw s
    .ok
      { slideId := s.id
        title := s.title
        content := processed
        confidence := calculateConfidence processed s compliance
        warnings := validateContent processed s compliance
        placeholders := s.placeholder_mapping }

/-- The error result pushed by the `catch` block of `generateAllSlides`
(lines 59–70). -/
def failureResult (s : SlideConfig) (e : Str) : SlideResult :=
  { slideId := s.id
    title := s.title
    content := "Error generating ".toList ++ s.title ++ ": ".toList ++ e
    confidence := 0
    warnings := ["Generation failed".toList]
    placeholders := s.placeholder_mapping }

/-- The per-slide outcome of one loop iteration of `generateAllSlides`:
the `try` body's result, or the `catch` block's error record. -/
def genOne (compliance : ComplianceTerms) (fmtg : Formatting)
    (provider : Provider) (s : SlideConfig) : SlideResult :=
  match generateSlideE compliance fmtg provider s with
  | .ok r => r
  | .error e => failureResult s e

/-- Observable events of the generation loop: the progress callback
invocation and markers bracketing `generateSlide`. -/
inductive GenEvent where
  | progress (title : Str) (num total : Nat)
  | started (id : Str)
  | finished (id : Str)
deriving DecidableEq, Repr

/-- The loop of `generateAllSlides` (lines 47–71) over the already-selected
slide list: for the `i`-th slide the progress callback fires with
`(title, i + 1, total)` and only then does `generateSlide` run; a failure
is converted to `failureResult` and the loop continues. -/
def runSlides (compliance : ComplianceTerms) (fmtg : Formatting)
    (provider : Provider) (total : Nat) :
    Nat → List SlideConfig → List SlideResult × List GenEvent
  | _, [] => ([], [])
  | i, s :: rest =>
    let r :=
      match generateSlideE compliance fmtg provider s with
      | .ok res => res
      | .error e => failureResult s e
    let (rs, evs) := runSlides compliance fmtg provider total (i + 1) rest
    (r :: rs,
      GenEvent.progress s.title (i + 1) total ::
        GenEvent.started s.id :: GenEvent.finished s.id :: evs)

/-- `generateAllSlides` (lines 38–74): iterate the enabled slides of the
configuration in order, returning the collected results and the event
trace. -/
def generateAllSlides (cfg : GlobalConfig) (provider : Provider) :
    List SlideResult × List GenEvent :=
  let slides := getEnabledSlides cfg
  runSlides (getComplianceTerms cfg) (getGlobalFormatting cfg) provider
    slides.length 0 slides

/-! ## Intelligent bullet splitting (`pptxService.ts`, lines 215–360)

`intelligentBulletSplit` tries the five connector patterns, then sentence
boundaries, then a parenthetical split, then word wrapping.  The JS
`String.split(regex)` semantics are modelled exactly: when a pattern has a
capture group (the two conjunction patterns), each match contributes the
captured connector word as an element of the resulting array, between the
surrounding pieces. -/

/-- `maxLength` of `intelligentBulletSplit`. -/
def maxLen : Nat := 80

/-- The connector words of the two conjunction patterns, in alternation
order; none is a prefix of another, so first-alternative matching agrees
with the regex engine. -/
def connWords : List Str :=
  ["and".toList, "while".toList, "with".toList, "including".toList,
   "through".toList, "via".toList, "by".toList, "using".toList,
   "ensuring".toList]

/-- The five connector patterns of `intelligentBulletSplit`, in order:
`/,\s+(conn)\s+/i`, `/\s+(conn)\s+/i`, `/;\s+/`, `/\s+–\s+/`,
`/\s+-\s+/`. -/
inductive ConnPat where
  | p1 | p2 | p3 | p4 | p5
deriving DecidableEq, Repr

/-- Match `\s+(conn)\s+` (case-insensitive) at the head of `s`, returning
the total match length and the captured word as it appears in `s`. -/
def matchWsConnWs (s : Str) : Option (Nat × Option Str) :=
  let ws1 := (s.takeWhile isWs).length
  if ws1 = 0 then none
  else
    let rest := s.drop ws1
    match connWords.find? (fun w =>
        decide (lowerStr (rest.take w.length) = w)) with
    | none => none
    | some w =>
      let rest2 := rest.drop w.length
      let ws2 := (rest2.takeWhile isWs).length
      if ws2 = 0 then none
      else some (ws1 + w.length + ws2, some (rest.take w.length))

/-- Match one of the five patterns at the head of `s`: total length and
optional capture. -/
def matchConnPat : ConnPat → Str → Option (Nat × Option Str)
  | .p1, s =>
    match s with
    | ',' :: rest =>
      match matchWsConnWs rest with
      | some (len, cap) => some (len + 1, cap)
      | none => none
    | _ => none
  | .p2, s => matchWsConnWs s
  | .p3, s =>
    match s with
    | ';' :: rest =>
      let ws := (rest.takeWhile isWs).length
      if ws = 0 then none else some (ws + 1, none)
    | _ => none
  | .p4, s =>
    let ws1 := (s.takeWhile isWs).length
    if ws1 = 0 then none
    else match s.drop ws1 with
      | '–' :: rest2 =>
        let ws2 := (rest2.takeWhile isWs).length
        if ws2 = 0 then none else some (ws1 + 1 + ws2, none)
      | _ => none
  | .p5, s =>
    let ws1 := (s.takeWhile isWs).length
    if ws1 = 0 then none
    else match s.drop ws1 with
      | '-' :: rest2 =>
        let ws2 := (rest2.takeWhile isWs).length
        if ws2 = 0 then none else some (ws1 + 1 + ws2, none)
      | _ => none

/-- Leftmost match of a pattern: the piece before the match, the match
length and the capture. -/
def findConnPat (p : ConnPat) : Str → Option (Str × Nat × Option Str)
  | [] => none
  | c :: rest =>
    match matchConnPat p (c :: rest) with
    | some (len, cap) => some ([], len, cap)
    | none =>
      match findConnPat p rest with
      | some (pre, len, cap) => some (c :: pre, len, cap)
      | none => none

/-- `text.split(pattern)` with capture-group interleaving, fuel-bounded
(every match consumes at least one character). -/
def splitConnGo (p : ConnPat) : Nat → Str → List Str
  | 0, s => [s]
  | fuel + 1, s =>
    match findConnPat p s with
    | none => [s]
    | some (pre, len, cap) =>
      let rest := s.drop (pre.length + len)
      let tailParts := splitConnGo p fuel rest
      match cap with
      | some w => pre :: w :: tailParts
      | none => pre :: tailParts

/-- `text.split(pattern)` for a connector pattern. -/
def splitConn (p : ConnPat) (s : Str) : List Str :=
  splitConnGo p (s.length + 1) s

/-- `extractConnector` (lines 332–340): the first match of the pattern in
the whole text, stripped of `[,;\s-–]`, defaulting to `"and"`. -/
def extractConnector (text : Str) (p : ConnPat) : Str :=
  match findConnPat p text with
  | some (pre, len, _) =>
    let m := (text.drop pre.length).take len
    let w := m.filter (fun c =>
      !(c = ',' || c = ';' || isWs c || c = '-' || c = '–'))
    if w = [] then "and".toList else w
  | none => "and".toList

/-- The greedy reassembly loop of strategy 1 (lines 234–255): parts are
trimmed and joined as `current + ' ' + connector + ' ' + part`; when the
joined length would exceed `maxLength` the current fragment is flushed.
The `Bool` is true on the first iteration (where the connector is the empty
string, though it is never used because `currentPart` is still empty). -/
def reassembleGo (conn : Str) : List Str → Str → List Str
  | [], cur => if cur ≠ [] then [jsTrim cur] else []
  | part :: rest, cur =>
    let p := jsTrim part
    if cur ≠ [] ∧ (cur ++ ' ' :: (conn ++ ' ' :: p)).length > maxLen then
      jsTrim cur :: reassembleGo conn rest p
    else if cur ≠ [] then
      reassembleGo conn rest (cur ++ ' ' :: (conn ++ ' ' :: p))
    else
      reassembleGo conn rest p

/-- One pattern of strategy 1 (lines 231–262): split, reassemble with the
extracted connector, and accept only when more than one fragment results
and every fragment is at most `maxLength + 10`. -/
def tryConnPat (text : Str) (p : ConnPat) : Option (List Str) :=
  let parts := splitConn p text
  if parts.length > 1 then
    let conn := extractConnector text p
    let res := reassembleGo conn parts []
    if res.length > 1 ∧ res.all (fun f => f.length ≤ maxLen + 10) then some res
    else none
  else none

/-- Strategy 1: the five patterns tried in order. -/
def tryStrategy1 (text : Str) : Option (List Str) :=
  match tryConnPat text .p1 with
  | some r => some r
  | none =>
    match tryConnPat text .p2 with
    | some r => some r
    | none =>
      match tryConnPat text .p3 with
      | some r => some r
      | none =>
        match tryConnPat text .p4 with
        | some r => some r
        | none => tryConnPat text .p5

/-- Match `\.\s+` at the head of `s` (sentence boundary). -/
def matchDotWs (s : Str) : Option Nat :=
  match s with
  | '.' :: rest =>
    let ws := (rest.takeWhile isWs).length
    if ws = 0 then none else some (ws + 1)
  | _ => none

/-- Leftmost sentence boundary. -/
def findDotWs : Str → Option (Str × Nat)
  | [] => none
  | c :: rest =>
    match matchDotWs (c :: rest) with
    | some len => some ([], len)
    | none =>
      match findDotWs rest with
      | some (pre, len) => some (c :: pre, len)
      | none => none

/-- `text.split(/\.\s+/)`, fuel-bounded. -/
def splitDotWsGo : Nat → Str → List Str
  | 0, s => [s]
  | fuel + 1, s =>
    match findDotWs s with
    | none => [s]
    | some (pre, len) => pre :: splitDotWsGo fuel (s.drop (pre.length + len))

/-- `text.split(/\.\s+/)`. -/
def splitDotWs (s : Str) : List Str := splitDotWsGo (s.length + 1) s

/-- The sentence-grouping loop of strategy 2 (lines 266–283): each sentence
gets its period restored, and sentences are packed greedily into groups of
at most `maxLength` — with no length check on a single over-long
sentence. -/
def groupSentences : List Str → Str → List Str
  | [], cur => if cur ≠ [] then [jsTrim cur] else []
  | sen :: rest, cur =>
    let swp := if sen.getLast? = some '.' then sen else sen ++ ['.']
    if cur ≠ [] ∧ (cur ++ ' ' :: swp).length > maxLen then
      jsTrim cur :: groupSentences rest swp
    else
      groupSentences rest (if cur = [] then swp else cur ++ ' ' :: swp)

/-- Strategy 2 (lines 265–288): split on sentence boundaries, regroup, and
accept whenever more than one fragment results. -/
def tryStrategy2 (text : Str) : Option (List Str) :=
  let sentences := (splitDotWs text).filter (fun s => s.length > 0)
  if sentences.length > 1 then
    let result := groupSentences sentences []
    if result.length > 1 then some result else none
  else none

/-- Match of `/^(.*?)\s*\((.*?)\)(.*)$/` for the newline-free bullet lines
this function receives: text before the first `(` (minus the whitespace run
directly before it), the inside up to the first `)`, and the rest. -/
def parenMatch (text : Str) : Option (Str × Str × Str) :=
  match (List.range text.length).find?
      (fun i => text.get? i = some '(') with
  | none => none
  | some p =>
    let pre := text.take p
    let before := (pre.reverse.dropWhile isWs).reverse
    let rest := text.drop (p + 1)
    match (List.range rest.length).find?
        (fun k => rest.get? k = some ')') with
    | none => none
    | some q => some (before, rest.take q, rest.drop (q + 1))

/-- Strategy 3 (lines 291–300): emit `<before><after>` and
`(<parenthetical>)` when both fit in `maxLength`. -/
def tryStrategy3 (text : Str) : Option (List Str) :=
  match parenMatch text with
  | none => none
  | some (before, inside, after) =>
    let mainText := jsTrim (before ++ after)
    let par := '(' :: (inside ++ [')'])
    if mainText.length ≤ maxLen ∧ par.length ≤ maxLen then
      some [mainText, par]
    else none

/-- The connector / preposition words scanned by `findGoodBreakPoint`. -/
def breakWords : List Str :=
  ["and".toList, "or".toList, "but".toList, "while".toList, "with".toList,
   "through".toList, "by".toList, "for".toList, "in".toList, "on".toList,
   "at".toList, "to".toList]

/-- `text.lastIndexOf(pat, bound)`: the largest start index `i ≤ bound` of
an occurrence of `pat`. -/
def lastIndexOfLe (text pat : Str) (bound : Nat) : Option Nat :=
  ((List.range (bound + 1)).filter (fun i => matchesAt text pat i)).getLast?

/-- `findGoodBreakPoint` (lines 342–360): look for the last break word
occurring as `' word '` at an index at most 70% of the length and strictly
beyond 30% of it, then for `', '` the same way (returning the index after
the comma and space), else `0`.  The fractional bounds `0.7 · len` and
`0.3 · len` are modelled by exact rational comparison. -/
def findGoodBreakPoint (text : Str) : Nat :=
  let len := text.length
  match breakWords.findSome? (fun w =>
      match lastIndexOfLe text (' ' :: (w ++ [' '])) (7 * len / 10) with
      | some idx => if 10 * idx > 3 * len then some idx else none
      | none => none) with
  | some idx => idx
  | none =>
    match lastIndexOfLe text (',' :: [' ']) (7 * len / 10) with
    | some ci => if 10 * ci > 3 * len then ci + 2 else 0
    | none => 0

/-- The word-wrap loop of strategy 4 (lines 303–329): greedy word packing;
on overflow the current fragment is cut at a good break point when one
exists, the tail being carried into the next fragment. -/
def wordWrapGo : List Str → Str → List Str → List Str
  | [], cur, acc => if cur ≠ [] then acc ++ [jsTrim cur] else acc
  | w :: rest, cur, acc =>
    if cur ≠ [] ∧ (cur ++ ' ' :: w).length > maxLen then
      let bp := findGoodBreakPoint cur
      if bp > 0 then
        wordWrapGo rest (jsTrim (cur.drop bp) ++ ' ' :: w)
          (acc ++ [jsTrim (cur.take bp)])
      else
        wordWrapGo rest w (acc ++ [jsTrim cur])
    else
      wordWrapGo rest (if cur = [] then w else cur ++ ' ' :: w) acc

/-- Strategy 4: `text.split(' ')`, wrapped, empty fragments dropped. -/
def wordWrapSplit (text : Str) : List Str :=
  (wordWrapGo (splitSp text) [] []).filter (fun b => b.length > 0)

/-- `intelligentBulletSplit` (lines 215–330): short lines pass through,
otherwise the first succeeding strategy wins, with word wrap as the last
resort. -/
def intelligentBulletSplit (text : Str) : List Str :=
  if text.length ≤ maxLen then [text]
  else
    match tryStrategy1 text with
    | some r => r
    | none =>
      match tryStrategy2 text with
      | some r => r
      | none =>
        match tryStrategy3 text with
        | some r => r
        | none => wordWrapSplit text

/-! ## Document assembly (`pptxService.ts`, lines 21–81 and 476–518) -/

/-- `DiscoveryData` (`types/index.ts`). -/
structure DiscoveryData where
  companyName : Str
  industry : Str
  businessChallenge : Str
  techStack : Option Str
  projectType : Str
  duration : Option Str
  budgetRange : Option Str
  successCriteria : Option Str
deriving DecidableEq, Repr

/-- One generated proposal section. -/
structure ProposalSection where
  content : Str
  confidence : Int
  warnings : List Str
deriving DecidableEq, Repr

/-- The sections of a `Proposal` that the assembler reads through `?.`. -/
structure ProposalSections where
  overview : Option ProposalSection
  solution_approach : Option ProposalSection
  outcomes : Option ProposalSection
  next_steps : Option ProposalSection
deriving DecidableEq, Repr

/-- The parts of a `Proposal` consumed by document assembly. -/
structure Proposal where
  sections : ProposalSections
  overallConfidence : Int
deriving DecidableEq, Repr

/-- JS `a || b` for an optional numeric field chain such as
`proposal.sections.overview?.confidence || 0`. -/
def jsOrConf (s : Option ProposalSection) : Int :=
  match s with
  | none => 0
  | some sec => if sec.confidence = 0 then 0 else sec.confidence

/-- `section?.content || 'Not available'`. -/
def sectionContentOr (s : Option ProposalSection) (d : Str) : Str :=
  jsOrStr (s.map (fun sec => sec.content)) d

/-- `formatProblemStatement` (lines 362–416): keyword-driven problem
bullets derived from the discovery data. -/
def formatProblemStatement (d : DiscoveryData) : Str :=
  let pts : List Str :=
    if d.businessChallenge ≠ [] then
      let ch := lowerStr d.businessChallenge
      let pts :=
        if containsSub ch ("compet".toList) ||
            containsSub ch ("market share".toList) ||
            containsSub ch ("losing customers".toList) then
          [("• ".toList ++ jsOrStr (some d.industry) ("Market".toList) ++
            " competition pressures require immediate modernization".toList)]
        else []
      let pts :=
        if containsSub ch ("legacy".toList) ||
            containsSub ch ("outdated".toList) ||
            containsSub ch ("system".toList) ||
            containsSub ch ("technology".toList) then
          pts ++ ["• Legacy technology infrastructure limits operational efficiency and growth".toList]
        else pts
      let pts :=
        if containsSub ch ("customer".toList) ||
            containsSub ch ("experience".toList) ||
            containsSub ch ("service".toList) then
          pts ++ ["• Current systems cannot deliver modern customer expectations".toList]
        else pts
      let pts :=
        if containsSub ch ("digital".toList) ||
            containsSub ch ("online".toList) ||
            containsSub ch ("e-commerce".toList) ||
            containsSub ch ("omnichannel".toList) then
          pts ++ ["• Digital capabilities gap threatens competitive positioning".toList]
        else pts
      if containsSub ch ("manual".toList) ||
          containsSub ch ("process".toList) ||
          containsSub ch ("efficiency".toList) ||
          containsSub ch ("productivity".toList) then
        pts ++ ["• Manual processes create bottlenecks and limit scalability".toList]
      else pts
    else []
  let pts :=
    if d.industry ≠ [] ∧ pts.length < 4 then
      pts ++ [("• ".toList ++ d.industry ++
        " industry demands require strategic technology investment".toList)]
    else pts
  let pts :=
    if strTruthy d.duration ∧ pts.length < 4 then
      pts ++ [("• ".toList ++ d.duration.getD [] ++
        " implementation timeline requires focused execution".toList)]
    else pts
  let pts :=
    if pts.length = 0 then
      ["• Legacy systems hindering competitive advantage and growth".toList,
       "• Operational inefficiencies impacting customer satisfaction".toList,
       "• Technology gaps limiting business agility and innovation".toList,
       "• Digital transformation required for market leadership".toList]
    else pts
  joinWith ("\n\n".toList) (pts.take 5)

/-- `formatAssumptions` (lines 418–445). -/
def formatAssumptions (d : DiscoveryData) : Str :=
  let a1 := "• Current systems remain operational during implementation".toList
  let a2 :=
    if strTruthy d.duration then
      "• ".toList ++ d.duration.getD [] ++
        " timeline assumes full client availability".toList
    else "• Timeline assumes full client availability and decisions".toList
  let a3 :=
    if strTruthy d.budgetRange then
      "• ".toList ++ d.budgetRange.getD [] ++
        " budget includes all specified requirements".toList
    else "• Budget includes all currently specified requirements".toList
  let a4 := "• Key stakeholders available for validation and testing".toList
  let a5 := "• Client provides system access and documentation".toList
  joinWith ("\n\n".toList) ([a1, a2, a3, a4, a5].take 5)

/-- `formatClientResponsibilities` (lines 447–465). -/
def formatClientResponsibilities (_d : DiscoveryData) : Str :=
  joinWith ("\n\n".toList)
    ["• Designate primary project sponsor and decision-maker".toList,
     "• Provide subject matter experts for requirements gathering".toList,
     "• Provide system access, databases, and documentation".toList,
     "• Configure network connectivity and security permissions".toList,
     "• Allocate internal resources for testing and validation".toList,
     "• Participate in status meetings and deliverable reviews".toList]

/-- The plain-text summary written by `createFallbackPresentation`
(lines 485–510); `dateStr` stands for `new Date().toLocaleDateString()`. -/
def fallbackSummary (p : Proposal) (d : DiscoveryData) (dateStr : Str) : Str :=
  "\nSOLUTION PROPOSAL FOR ".toList ++ upperStr d.companyName ++
  "\n".toList ++ d.projectType ++ " Initiative\nGenerated: ".toList ++
  dateStr ++
  "\n\nPROBLEM STATEMENT\n".toList ++ formatProblemStatement d ++
  "\n\nOVERVIEW (Confidence: ".toList ++
  intToStr (jsOrConf p.sections.overview) ++ "%)\n".toList ++
  sectionContentOr p.sections.overview ("Not available".toList) ++
  "\n\nSOLUTION & APPROACH (Confidence: ".toList ++
  intToStr (jsOrConf p.sections.solution_approach) ++ "%)\n".toList ++
  sectionContentOr p.sections.solution_approach ("Not available".toList) ++
  "\n\nEXPECTED OUTCOMES (Confidence: ".toList ++
  intToStr (jsOrConf p.sections.outcomes) ++ "%)\n".toList ++
  sectionContentOr p.sections.outcomes ("Not available".toList) ++
  "\n\nASSUMPTIONS\n".toList ++ formatAssumptions d ++
  "\n\nCLIENT RESPONSIBILITIES\n".toList ++
  formatClientResponsibilities d ++
  "\n\nOverall Confidence Score: ".toList ++
  intToStr (if p.overallConfidence = 0 then 0 else p.overallConfidence) ++
  "%\nGenerated by Presidio Solution Proposal Generator\n".toList

/-- Which steps of `createPresentation` fail in a given run: the template
existence check (line 28), reading/loading the template zip (lines 35–47),
`doc.render()` (line 54, caught by its own inner `try`), and generating or
writing the output (lines 61–69). -/
structure AssemblyEnv where
  templateFileExists : Bool
  templateLoadFails : Bool
  renderFails : Bool
  generateFails : Bool
deriving DecidableEq, Repr

/-- The artifact a run of `createPresentation` produces: the binary
presentation, or the plain-text fallback file with its summary content. -/
inductive Artifact where
  | pptx
  | txt (content : Str)
deriving DecidableEq, Repr

/-- Is the artifact the plain-text fallback? -/
def Artifact.isTxt : Artifact → Bool
  | .pptx => false
  | .txt _ => true

/-- `createPresentation` (lines 21–81): any throw inside the outer `try` —
a missing template, a load failure, or a generate/write failure — falls
back to `createFallbackPresentation`; a `doc.render()` throw is caught by
the inner `try`, logged, and the binary artifact is still produced. -/
def createPresentation (env : AssemblyEnv) (p : Proposal) (d : DiscoveryData)
    (dateStr : Str) : Artifact :=
  if !env.templateFileExists then .txt (fallbackSummary p d dateStr)
  else if env.templateLoadFails then .txt (fallbackSummary p d dateStr)
  else if env.generateFails then .txt (fallbackSummary p d dateStr)
  else .pptx

/-! ## Concrete instances used by the theorems below -/

/-- A template whose industry set contains both a concrete industry and the
wildcard. -/
def tBoth : TemplateInfo :=
  { id := "combo".toList
    name := "Combo".toList
    industries := ["Healthcare".toList, "all".toList]
    projectTypes := ["all".toList] }

/-- A template that matches only through the wildcard. -/
def tAllOnly : TemplateInfo :=
  { id := "universal".toList
    name := "Universal".toList
    industries := ["all".toList]
    projectTypes := ["all".toList] }

/-- Selection criteria requesting the concrete industry `Healthcare`. -/
def cHealth : SelectionCriteria :=
  { industry := some ("Healthcare".toList)
    projectType := none
    templateId := none }

/-- An over-length line whose only structure is one sentence boundary early
on: no connector pattern matches, so the sentence-split strategy is used,
and its second fragment is a 101-character multi-word sentence. -/
def c2text : Str :=
  ("Zebras gallop. quokkas sprint across golden meadows chasing bright " ++
   "kites during calm afternoons under azure skyline").toList

/-- A 98-character line with a single `and` connector, on which the
connector-split strategy succeeds. -/
def c2wtext : Str :=
  ("Implement comprehensive data pipelines for analytics and deliver " ++
   "realtime dashboards to executives").toList

/-- The fragments the connector strategy produces for `c2wtext` (note the
doubled connector produced by re-inserting the already-split-out capture
group). -/
def c2wparts : List Str :=
  [("Implement comprehensive data pipelines for analytics and and").toList,
   ("deliver realtime dashboards to executives").toList]

/-- The 88-character text before the single connector of the C5 scenario. -/
def c5before : Str :=
  ("Modernize the core claims platform to unlock faster product launches " ++
   "across every region").toList

/-- The 107-character continuation after the connector. -/
def c5after : Str :=
  ("empower distributed teams everywhere to deliver richer digital " ++
   "experiences for customers in all key markets").toList

/-- A 200-character bullet whose only split opportunity is `" and "`
starting at character 88. -/
def c5text : Str := c5before ++ " and ".toList ++ c5after

/-- A slide scored only by the risky-term penalty. -/
def c4slide : SlideConfig :=
  { id := "overview".toList
    enabled := true
    order := 1
    title := "Overview".toList
    placeholder_mapping :=
      { content := "OVERVIEW_CONTENT".toList
        title := none, confidence := none, warnings := none }
    prompt := { template := "Write the overview".toList, vars := [] }
    validation := none
    scoring := some
      { base_score := some 85
        penalties := some
          { contains_risky_term := some 10
            too_short := none, too_long := none
            missing_required_keyword := none, missing_metrics := none }
        bonuses := none } }

/-- Compliance terms with two risky terms. -/
def c4compliance : ComplianceTerms :=
  { risky_terms := some ["guarantee".toList, "promise".toList]
    absolute_terms := none
    qualifying_terms := none }

/-- Content containing both distinct risky terms. -/
def c4content : Str := "We guarantee and promise rapid delivery".toList

/-- A minimal enabled slide used by the generation-loop instances. -/
def s6 : SlideConfig :=
  { id := "overview".toList
    enabled := true
    order := 1
    title := "Overview".toList
    placeholder_mapping :=
      { content := "OVERVIEW_CONTENT".toList
        title := none, confidence := none, warnings := none }
    prompt := { template := "Write the overview".toList, vars := [] }
    validation := none
    scoring := none }

/-- A second enabled slide, ordered after `s6`. -/
def s3b : SlideConfig :=
  { id := "outcomes".toList
    enabled := true
    order := 2
    title := "Expected Outcomes".toList
    placeholder_mapping :=
      { content := "OUTCOMES_CONTENT".toList
        title := none, confidence := none, warnings := none }
    prompt := { template := "Write the outcomes".toList, vars := [] }
    validation := none
    scoring := none }

/-- A one-slide configuration. -/
def cfg6 : GlobalConfig :=
  { version := "1.0".toList
    metadata := { author := "Test".toList, description := "cfg".toList, created := none }
    defaults := { model := none, max_tokens := none, temperature := none }
    global_formatting := none
    compliance := none
    slides := [s6]
    static_slides := none }

/-- A two-slide configuration. -/
def cfg3 : GlobalConfig :=
  { cfg6 with slides := [s6, s3b] }

/-- A provider that succeeds on every slide. -/
def provider6 : Provider := fun _ => .ok ["Hello world".toList]

/-- A provider that throws exactly on the `outcomes` slide. -/
def provider3 : Provider := fun s =>
  if s.id = "outcomes".toList then .error ("boom".toList)
  else .ok ["Hello world".toList]

/-- Does an event record a progress-callback invocation? -/
def isProgressEv : GenEvent → Bool
  | .progress _ _ _ => true
  | _ => false

/-- Does an event record the start of a slide's generation? -/
def isStartedEv : GenEvent → Bool
  | .started _ => true
  | _ => false

/-- Does an event record the completion of a slide's generation? -/
def isFinishedEv : GenEvent → Bool
  | .finished _ => true
  | _ => false

/-- Discovery data for the assembly instances. -/
def d7 : DiscoveryData :=
  { companyName := "Acme Retail".toList
    industry := "Retail".toList
    businessChallenge := "legacy systems".toList
    techStack := none
    projectType := "Modernization".toList
    duration := none
    budgetRange := none
    successCriteria := none }

/-- A proposal with no generated sections. -/
def p7 : Proposal :=
  { sections := { overview := none, solution_approach := none,
                  outcomes := none, next_steps := none }
    overallConfidence := 0 }

/-- An assembly run where only `doc.render()` throws. -/
def env7 : AssemblyEnv :=
  { templateFileExists := true
    templateLoadFails := false
    renderFails := true
    generateFails := false }

/-! ## Theorems -/

/-- C1 (counterexample): a template whose industry set contains both the
exact requested industry (`Healthcare`) and the wildcard `all` scores `1`,
not the `3` the claim requires, because `selectTemplate` checks the
wildcard first. -/
theorem c1_counterexample :
    scoreTemplate tBoth cHealth ("default".toList) = 1 ∧
    ¬ scoreTemplate tBoth cHealth ("default".toList) = 3 := by
  constructor <;> simp [scoreTemplate, tBoth, cHealth, strTruthy]

/-- C1 (amended): for a truthy requested industry the score contribution is
`+1` whenever the template's industry set contains the wildcard `all` —
this branch takes precedence even when the exact industry is also present —
and otherwise `+3` when the set contains the requested industry exactly;
the same precedence holds for the project type. -/
theorem c1_wildcard_precedence :
    (∀ (t : TemplateInfo) (ind d : Str), ind ≠ [] →
      (("all".toList) ∈ t.industries →
        scoreTemplate t ⟨some ind, none, none⟩ d = 1) ∧
      (("all".toList) ∉ t.industries → ind ∈ t.industries →
        scoreTemplate t ⟨some ind, none, none⟩ d = 3) ∧
      (("all".toList) ∉ t.industries → ind ∉ t.industries → t.id ≠ d →
        scoreTemplate t ⟨some ind, none, none⟩ d = 0)) ∧
    (∀ (t : TemplateInfo) (pt d : Str), pt ≠ [] →
      (("all".toList) ∈ t.projectTypes →
        scoreTemplate t ⟨none, some pt, none⟩ d = 1) ∧
      (("all".toList) ∉ t.projectTypes → pt ∈ t.projectTypes →
        scoreTemplate t ⟨none, some pt, none⟩ d = 3) ∧
      (("all".toList) ∉ t.projectTypes → pt ∉ t.projectTypes → t.id ≠ d →
        scoreTemplate t ⟨none, some pt, none⟩ d = 0)) := by
  constructor
  · intro t ind d hind
    refine ⟨?_, ?_, ?_⟩
    · intro h1
      have h1' : (['a', 'l', 'l'] : Str) ∈ t.industries := h1
      simp [scoreTemplate, strTruthy, hind, h1']
    · intro h1 h2
      have h1' : (['a', 'l', 'l'] : Str) ∉ t.industries := h1
      simp [scoreTemplate, strTruthy, hind, h1', h2]
    · intro h1 h2 h3
      have h1' : (['a', 'l', 'l'] : Str) ∉ t.industries := h1
      simp [scoreTemplate, strTruthy, hind, h1', h2, h3]
  · intro t pt d hpt
    refine ⟨?_, ?_, ?_⟩
    · intro h1
      have h1' : (['a', 'l', 'l'] : Str) ∈ t.projectTypes := h1
      simp [scoreTemplate, strTruthy, hpt, h1']
    · intro h1 h2
      have h1' : (['a', 'l', 'l'] : Str) ∉ t.projectTypes := h1
      simp [scoreTemplate, strTruthy, hpt, h1', h2]
    · intro h1 h2 h3
      have h1' : (['a', 'l', 'l'] : Str) ∉ t.projectTypes := h1
      simp [scoreTemplate, strTruthy, hpt, h1', h2, h3]

/-- C1 (witness): the wildcard-only template scores `1` for the concrete
industry `Healthcare`. -/
theorem c1_witness :
    scoreTemplate tAllOnly cHealth ("default".toList) = 1 :=
  (c1_wildcard_precedence.1 tAllOnly ("Healthcare".toList)
    ("default".toList) (by decide)).1 (by decide)

/-- C9: for every content string, slide configuration and compliance term
list, the computed confidence is in `[0, 100]`. -/
theorem c9_confidence_bounds :
    ∀ (content : Str) (slide : SlideConfig) (compliance : ComplianceTerms),
      0 ≤ calculateConfidence content slide compliance ∧
      calculateConfidence content slide compliance ≤ 100 := by
  intro content slide compliance
  unfold calculateConfidence
  cases slide.scoring with
  | none => exact ⟨by norm_num, by norm_num⟩
  | some scoring =>
    exact ⟨le_max_left 0 _, max_le (by norm_num) (min_le_left _ _)⟩

/-- C8: when the configuration file is absent, unparseable, or invalid at
first load (no previous config), the store installs the minimal fallback
configuration, whose enabled-slide list is empty. -/
theorem c8_fallback_on_failed_first_load :
    ∀ env : LoadEnv,
      env.fileExists = false ∨ env.parsed = none ∨ env.validates = false →
      loadConfiguration none env = some getFallbackConfiguration ∧
      (getEnabledSlides getFallbackConfiguration).length = 0 := by
  intro env h
  refine ⟨?_, by decide⟩
  obtain ⟨fe, pa, va⟩ := env
  rcases h with h | h | h
  · subst h; simp [loadConfiguration, loadAttemptResult]
  · subst h; cases fe <;> simp [loadConfiguration, loadAttemptResult]
  · subst h
    cases fe <;> cases pa <;> simp [loadConfiguration, loadAttemptResult]

/-- C8 (witness): a missing configuration file yields the fallback with
zero slides. -/
theorem c8_witness :
    loadConfiguration none ⟨false, none, true⟩ = some getFallbackConfiguration ∧
    (getEnabledSlides getFallbackConfiguration).length = 0 :=
  c8_fallback_on_failed_first_load ⟨false, none, true⟩ (Or.inl rfl)

/-- C10: the stored configuration is never null after a load, a failed
reload leaves the previously loaded configuration in effect unchanged, and
`getConfiguration` returns it. -/
theorem c10_failed_reload_keeps_config :
    (∀ (cur : Option GlobalConfig) (env : LoadEnv),
      (loadConfiguration cur env).isSome = true) ∧
    (∀ (cfg : GlobalConfig) (env : LoadEnv),
      env.fileExists = false ∨ env.parsed = none ∨ env.validates = false →
      reloadConfig (some cfg) env = some cfg) ∧
    (∀ (cfg : GlobalConfig) (env : LoadEnv),
      getConfiguration (some cfg) env = cfg) := by
  refine ⟨?_, ?_, fun cfg env => rfl⟩
  · intro cur env
    unfold loadConfiguration
    cases loadAttemptResult env <;> cases cur <;> simp
  · intro cfg env h
    obtain ⟨fe, pa, va⟩ := env
    rcases h with h | h | h
    · subst h
      simp [reloadConfig, loadConfiguration, loadAttemptResult]
    · subst h
      cases fe <;> simp [reloadConfig, loadConfiguration, loadAttemptResult]
    · subst h
      cases fe <;> cases pa <;>
        simp [reloadConfig, loadConfiguration, loadAttemptResult]

/-- C10 (witness): a reload whose parse fails keeps the previously loaded
configuration. -/
theorem c10_witness :
    reloadConfig (some getFallbackConfiguration) ⟨true, none, true⟩ =
      some getFallbackConfiguration :=
  c10_failed_reload_keeps_config.2.1 getFallbackConfiguration
    ⟨true, none, true⟩ (Or.inr (Or.inl rfl))

/-- C7 (counterexample): when only `doc.render()` throws, the binary
presentation is still produced — not the plain-text fallback the claim
requires. -/
theorem c7_counterexample :
    env7.renderFails = true ∧
    (createPresentation env7 p7 d7 ("1/15/2026".toList)).isTxt = false := by
  exact ⟨rfl, rfl⟩

/-- C7 (amended): assembly always yields an artifact; the plain-text
fallback (carrying the linearised section content) is produced exactly when
the template file is missing, the template fails to load, or generating /
writing the output fails — a `doc.render()` throw alone is logged and the
binary artifact is still produced. -/
theorem c7_fallback_characterisation :
    ∀ (env : AssemblyEnv) (p : Proposal) (d : DiscoveryData) (dt : Str),
      ((createPresentation env p d dt).isTxt =
        (!env.templateFileExists || env.templateLoadFails || env.generateFails)) ∧
      ((!env.templateFileExists || env.templateLoadFails || env.generateFails) = true →
        createPresentation env p d dt = .txt (fallbackSummary p d dt)) := by
  intro env p d dt
  rcases env with ⟨te, tl, rf, gf⟩
  cases te <;> cases tl <;> cases gf <;>
    simp [createPresentation, Artifact.isTxt]

/-- C7 (witness): a missing template file produces the plain-text fallback
artifact with the linearised summary. -/
theorem c7_witness :
    createPresentation ⟨false, false, false, false⟩ p7 d7 ("1/15/2026".toList) =
      .txt (fallbackSummary p7 d7 ("1/15/2026".toList)) :=
  (c7_fallback_characterisation ⟨false, false, false, false⟩ p7 d7
    ("1/15/2026".toList)).2 rfl

/-- The per-keyword penalty fold of `calculateConfidence` subtracts the
penalty once per missing keyword. -/
theorem foldl_penalty_count (content : Str) (p : Int) :
    ∀ (ks : List Str) (s : Int),
      ks.foldl (fun s k => if containsCI content k then s else s - p) s =
        s - p * (ks.countP (fun k => ¬ containsCI content k)) := by
  intro ks
  induction ks with
  | nil => intro s; simp
  | cons k ks ih =>
    intro s
    rw [List.foldl_cons, List.countP_cons]
    cases h : containsCI content k with
    | true => simp [ih]
    | false =>
      simp only [ih]
      simp
      ring

set_option maxRecDepth 10000 in
set_option maxHeartbeats 2000000 in
/-- C4 (counterexample): content containing two distinct configured risky
terms loses the penalty once (85 − 10 = 75), not twice as the claim
requires. -/
theorem c4_counterexample :
    containsCI c4content ("guarantee".toList) = true ∧
    containsCI c4content ("promise".toList) = true ∧
    calculateConfidence c4content c4slide c4compliance = 75 ∧
    ¬ calculateConfidence c4content c4slide c4compliance = 85 - 2 * 10 := by
  decide

set_option maxHeartbeats 4000000 in
/-- C4 (amended): the confidence computation subtracts the
`contains_risky_term` penalty at most once per slide — exactly once when at
least one configured risky term occurs in the content by case-insensitive
containment, regardless of how many distinct risky terms occur — as
captured by the closed-form `confidenceSpec`. -/
theorem c4_risky_penalty_once :
    ∀ (content : Str) (slide : SlideConfig) (compliance : ComplianceTerms),
      calculateConfidence content slide compliance =
        confidenceSpec content slide compliance := by
  intro content slide compliance
  unfold calculateConfidence confidenceSpec
  cases slide.scoring with
  | none => rfl
  | some scoring =>
    simp only [foldl_penalty_count]
    cases slide.validation with
    | none => split_ifs <;> ring
    | some v =>
      split_ifs <;> try ring
      all_goals split_ifs <;> ring

set_option maxRecDepth 100000 in
set_option maxHeartbeats 4000000 in
/-- C2 (counterexample): an over-length line on which the sentence-split
strategy fires can return a fragment that exceeds the threshold plus
tolerance while containing several words. -/
theorem c2_counterexample :
    c2text.length > 80 ∧
    ¬ (∀ f ∈ intelligentBulletSplit c2text,
        f.length ≤ maxLen + 10 ∨ f.all (fun c => !(isWs c)) = true) := by
  decide

/-- Acceptance of a connector pattern implies the length bound on every
fragment. -/
theorem tryConnPat_bounded :
    ∀ (text : Str) (p : ConnPat) (parts : List Str),
      tryConnPat text p = some parts → ∀ f ∈ parts, f.length ≤ maxLen + 10 := by
  intro text p parts h f hf
  simp only [tryConnPat] at h
  split at h
  · split at h
    · rename_i hcond
      cases h
      have hall := hcond.2
      rw [List.all_eq_true] at hall
      simpa using hall f hf
    · exact absurd h (by simp)
  · exact absurd h (by simp)

/-- C2 (amended): whenever the connector-split strategy (strategy 1 of
`intelligentBulletSplit`) succeeds, every returned fragment has length at
most `L + 10`; the later strategies (sentence split, parenthetical split,
word wrap) do not guarantee this bound, as `c2_counterexample` shows. -/
theorem c2_connector_fragments_bounded :
    ∀ (text : Str) (parts : List Str),
      tryStrategy1 text = some parts → ∀ f ∈ parts, f.length ≤ maxLen + 10 := by
  intro text parts h
  unfold tryStrategy1 at h
  rcases e1 : tryConnPat text ConnPat.p1 with _ | r1
  · simp only [e1] at h
    rcases e2 : tryConnPat text ConnPat.p2 with _ | r2
    · simp only [e2] at h
      rcases e3 : tryConnPat text ConnPat.p3 with _ | r3
      · simp only [e3] at h
        rcases e4 : tryConnPat text ConnPat.p4 with _ | r4
        · simp only [e4] at h
          exact tryConnPat_bounded text ConnPat.p5 parts h
        · simp only [e4, Option.some.injEq] at h
          subst h
          exact tryConnPat_bounded text ConnPat.p4 r4 e4
      · simp only [e3, Option.some.injEq] at h
        subst h
        exact tryConnPat_bounded text ConnPat.p3 r3 e3
    · simp only [e2, Option.some.injEq] at h
      subst h
      exact tryConnPat_bounded text ConnPat.p2 r2 e2
  · simp only [e1, Option.some.injEq] at h
    subst h
    exact tryConnPat_bounded text ConnPat.p1 r1 e1

set_option maxRecDepth 100000 in
set_option maxHeartbeats 4000000 in
/-- C2 (witness): the connector strategy succeeds on `c2wtext` and its
second fragment respects the bound. -/
theorem c2_witness :
    (("deliver realtime dashboards to executives").toList).length ≤ maxLen + 10 :=
  c2_connector_fragments_bounded c2wtext c2wparts (by decide)
    (("deliver realtime dashboards to executives").toList) (by decide)

set_option maxRecDepth 100000 in
set_option maxHeartbeats 4000000 in
/-- C5 (counterexample): for the 200-character bullet `c5text` whose only
split opportunity is `" and "` starting at character 88, the connector-split
strategy returns nothing at all (it is rejected), so it does not produce
the two bounded fragments the claim describes. -/
theorem c5_counterexample :
    c5text.length = 200 ∧
    matchesAt c5text (" and ".toList) 88 = true ∧
    (splitConn ConnPat.p2 c5text).length = 3 ∧
    tryStrategy1 c5text = none := by
  decide

set_option maxRecDepth 100000 in
set_option maxHeartbeats 4000000 in
/-- C5 (amended): on `c5text` the conjunction pattern splits into
`[before, "and", after]` (the capture group becomes its own array element),
the 107-character continuation exceeds `L + 10`, so the connector strategy
is rejected and the bullet is handled by the word-wrap fallback instead. -/
theorem c5_connector_rejected :
    splitConn ConnPat.p2 c5text = [c5before, "and".toList, c5after] ∧
    c5after.length > maxLen + 10 ∧
    tryConnPat c5text ConnPat.p2 = none ∧
    intelligentBulletSplit c5text = wordWrapSplit c5text := by
  decide

/-- The results component of the generation loop is the per-slide outcome
map. -/
theorem runSlides_results (comp : ComplianceTerms) (fmtg : Formatting)
    (provider : Provider) (total : Nat) :
    ∀ (l : List SlideConfig) (i : Nat),
      (runSlides comp fmtg provider total i l).1 =
        l.map (genOne comp fmtg provider) := by
  intro l
  induction l with
  | nil => intro i; rfl
  | cons s rest ih =>
    intro i
    simp [runSlides, genOne, ih]

/-- C3: `generateAllSlides` returns exactly one result per enabled slide,
in ascending `order`; a slide whose provider call throws is recorded with
confidence 0, the single warning `Generation failed` and an error-describing
content string, while every slide whose provider call succeeds — before or
after a failure — carries its normally generated result. -/
theorem c3_failure_isolation :
    ∀ (cfg : GlobalConfig) (provider : Provider),
      (generateAllSlides cfg provider).1 =
        (getEnabledSlides cfg).map
          (genOne (getComplianceTerms cfg) (getGlobalFormatting cfg) provider) ∧
      List.Pairwise slideLE (getEnabledSlides cfg) ∧
      (∀ (s : SlideConfig) (e : Str), provider s = .error e →
        genOne (getComplianceTerms cfg) (getGlobalFormatting cfg) provider s =
          { slideId := s.id
            title := s.title
            content := "Error generating ".toList ++ s.title ++ ": ".toList ++ e
            confidence := 0
            warnings := ["Generation failed".toList]
            placeholders := s.placeholder_mapping }) ∧
      (∀ (s : SlideConfig) (items : List Str), provider s = .ok items →
        genOne (getComplianceTerms cfg) (getGlobalFormatting cfg) provider s =
          { slideId := s.id
            title := s.title
            content := processContent (getGlobalFormatting cfg)
              (jsOrStr items.head? ("No content generated".toList)) s
            confidence := calculateConfidence
              (processContent (getGlobalFormatting cfg)
                (jsOrStr items.head? ("No content generated".toList)) s) s
              (getComplianceTerms cfg)
            warnings := validateContent
              (processContent (getGlobalFormatting cfg)
                (jsOrStr items.head? ("No content generated".toList)) s) s
              (getComplianceTerms cfg)
            placeholders := s.placeholder_mapping }) := by
  intro cfg provider
  refine ⟨?_, ?_, ?_, ?_⟩
  · unfold generateAllSlides
    exact runSlides_results _ _ _ _ _ 0
  · exact List.sorted_insertionSort slideLE _
  · intro s e he
    simp [genOne, generateSlideE, he, failureResult]
  · intro s items hi
    simp [genOne, generateSlideE, hi]

/-- C3 (witness): in the two-slide run where the provider throws only on
`outcomes`, that slide's outcome is the failure record. -/
theorem c3_witness :
    genOne (getComplianceTerms cfg3) (getGlobalFormatting cfg3) provider3 s3b =
      { slideId := s3b.id
        title := s3b.title
        content := "Error generating ".toList ++ s3b.title ++ ": ".toList ++
          "boom".toList
        confidence := 0
        warnings := ["Generation failed".toList]
        placeholders := s3b.placeholder_mapping } :=
  (c3_failure_isolation cfg3 provider3).2.2.1 s3b ("boom".toList) rfl

/-- The trace component of the generation loop: per slide, in order, one
progress event with `(title, index + 1, total)` immediately followed by the
start and completion of that slide's generation. -/
theorem runSlides_trace (comp : ComplianceTerms) (fmtg : Formatting)
    (provider : Provider) (total : Nat) :
    ∀ (l : List SlideConfig) (i : Nat),
      (runSlides comp fmtg provider total i l).2 =
        (List.enumFrom i l).flatMap (fun pr =>
          [GenEvent.progress pr.2.title (pr.1 + 1) total,
           GenEvent.started pr.2.id, GenEvent.finished pr.2.id]) := by
  intro l
  induction l with
  | nil => intro i; rfl
  | cons s rest ih =>
    intro i
    simp [runSlides, List.enumFrom, ih]

/-- C6 (counterexample): in a one-slide run the progress callback fires
before the slide's generation starts, not after it completes. -/
theorem c6_counterexample :
    (generateAllSlides cfg6 provider6).2 =
      [GenEvent.progress ("Overview".toList) 1 1,
       GenEvent.started ("overview".toList),
       GenEvent.finished ("overview".toList)] ∧
    ¬ (List.findIdx isFinishedEv (generateAllSlides cfg6 provider6).2 <
       List.findIdx isProgressEv (generateAllSlides cfg6 provider6).2) := by
  decide

/-- C6 (amended): over `n` enabled slides the progress callback is invoked
exactly once per slide with `(title, index, total)` and `total = n`, and
each invocation happens immediately *before* that slide's generation starts
(the trace is, slide by slide, progress–started–finished). -/
theorem c6_progress_precedes_generation :
    ∀ (cfg : GlobalConfig) (provider : Provider),
      (generateAllSlides cfg provider).2 =
        (List.enumFrom 0 (getEnabledSlides cfg)).flatMap (fun pr =>
          [GenEvent.progress pr.2.title (pr.1 + 1)
            (getEnabledSlides cfg).length,
           GenEvent.started pr.2.id, GenEvent.finished pr.2.id]) := by
  intro cfg provider
  unfold generateAllSlides
  exact runSlides_trace _ _ _ _ _ 0

end SSG
